import Mathlib

/-!
Shallow embedding of the artifact-generation core of a CMake-style build
system generator, covering the source files:

* `Source/CTest/cmCTestHandlerCommand.cxx` — the generic ctest handler
  command dispatch (`InitialPass`) with its `SaveRestoreErrorState`
  error-capture contract and duplicate-keyword detection;
* `Source/CTest/cmCTestBuildCommand.cxx` — the build handler
  initialization and its configuration/flags/target fallback chains;
* `Source/cmExportCommand.cxx` — the `export()` command forms
  (TARGETS/EXPORT/SETUP/PACKAGE) and the package registry backends.

Pure or stateful C++ code is translated into executable Lean definitions
(state passed explicitly); the theorems in the second half of the file
settle the specification claims against these definitions.
-/

namespace CMakeSpec

/-! # Definitions -/

/-! ## Interpreter state

The state visible to a ctest handler command invocation: the process-wide
error-occurred flag (`cmSystemTools::GetErrorOccurredFlag`), the makefile
variable definitions (`cmMakefile::AddDefinition` / `GetDefinition`), and
the log of issued messages. -/

structure InterpState where
  errorFlag : Bool
  defs : List (String × String)
  messages : List String
deriving Repr, DecidableEq

/-- `cmMakefile::AddDefinition`: a new binding shadows any previous one. -/
def addDefinition (st : InterpState) (n v : String) : InterpState :=
  { st with defs := (n, v) :: st.defs }

/-- `cmMakefile::GetDefinition`: the most recent binding of a name. -/
def getDef (st : InterpState) (n : String) : Option String :=
  (st.defs.find? (fun p => p.1 == n)).map (fun p => p.2)

/-- `cmMakefile::IssueMessage(FATAL_ERROR, m)`.  Modelled from the spec:
fatal conditions emit a descriptive message and raise the global
error-occurred flag (the message router lives outside the embedded
sources). -/
def issueFatalMessage (st : InterpState) (m : String) : InterpState :=
  { st with errorFlag := true, messages := st.messages ++ [m] }

/-! ## Duplicate-keyword detection (`cmCTestHandlerCommand::InitialPass`)

The parsed keywords are sorted with `std::sort` and scanned with
`std::adjacent_find`; a hit is a fatal duplicate-keyword error. -/

/-- Lexicographic comparison on code points: the order `std::sort` uses on
the keyword strings. -/
def charListLe : List Char → List Char → Bool
  | [], _ => true
  | _ :: _, [] => false
  | a :: as, b :: bs =>
    if a.toNat < b.toNat then true
    else if b.toNat < a.toNat then false
    else charListLe as bs

def stringLe (a b : String) : Prop := charListLe a.data b.data = true

instance : DecidableRel stringLe := fun _ _ => instDecidableEqBool _ _

/-- `std::adjacent_find`: the first element equal to its immediate
successor, if any. -/
def adjacentFind : List String → Option String
  | [] => none
  | [_] => none
  | a :: b :: t => if a = b then some a else adjacentFind (b :: t)

/-- The detection in `InitialPass`: sort the keywords actually seen, then
look for adjacent equal elements. -/
def detectDuplicateKeyword (ks : List String) : Option String :=
  adjacentFind (ks.insertionSort stringLe)

/-- The duplicate-keyword step of `InitialPass`: a hit issues the fatal
message `Called with more than one value for <keyword>`. -/
def duplicateKeywordCheck (ks : List String) (st : InterpState) : InterpState :=
  match detectDuplicateKeyword ks with
  | some k => issueFatalMessage st ("Called with more than one value for " ++ k)
  | none => st

/-! ## The generic handler command (`cmCTestHandlerCommand::InitialPass`)

The per-invocation inputs of `InitialPass`.  The argument parser
(`cmArgumentParser`) lives outside the embedded sources; its outputs are
taken as inputs here: `parsedKeywords` is the list of keywords actually
seen (one entry per occurrence, recorded via `BindParsedKeywords`) and
`unparsed` the unmatched tokens.  The fallible sub-operations of the
dispatch are represented by their outcomes: whether `InitializeHandler`
produced a handler, whether the `cmWorkingDirectory` change succeeded, the
`ProcessHandler` result, and whether execution raised the process-wide
error flag. -/

structure HandlerCmdEnv where
  parsedKeywords : List String
  unparsed : List String
  captureVar : String
  returnVar : String
  handlerInitOk : Bool
  workdirOk : Bool
  handlerResult : Int
  handlerSetsError : Bool
deriving Repr

/-- The `SaveRestoreErrorState` destructor as a function from the flag at
scope exit to the final flag: without capture, a flag set on entry is
re-asserted and otherwise the current value stands; with capture, the flag
is restored to its exact pre-call value. -/
def saveRestoreFinal (initial capture current : Bool) : Bool :=
  if capture then initial
  else if initial then true
  else current

/-- `cmCTestHandlerCommand::InitialPass`, as a function from the
invocation environment and entry state to the returned boolean and exit
state.  Follows the source control flow: snapshot and reset the error
flag, duplicate-keyword check, bad-argument exit, handler initialization
exit, working-directory exit, handler execution, capture finalization;
the `SaveRestoreErrorState` destructor runs on every return path. -/
def ctestHandlerInitialPass (env : HandlerCmdEnv) (st0 : InterpState) :
    Bool × InterpState :=
  let initial := st0.errorFlag
  let st1 := { st0 with errorFlag := false }
  let st2 := duplicateKeywordCheck env.parsedKeywords st1
  let capture := env.captureVar ≠ ""
  let fin := fun (ret : Bool) (st : InterpState) =>
    (ret, { st with errorFlag := saveRestoreFinal initial capture st.errorFlag })
  if env.unparsed.isEmpty = false then
    if capture then fin true (addDefinition st2 env.captureVar "-1")
    else fin false st2
  else if env.handlerInitOk = false then
    if capture then fin true (addDefinition st2 env.captureVar "-1")
    else fin false st2
  else if env.workdirOk = false then
    if capture then fin true (addDefinition st2 env.captureVar "-1")
    else fin false st2
  else
    let st3 := { st2 with errorFlag := st2.errorFlag || env.handlerSetsError }
    let st4 := if env.returnVar ≠ ""
      then addDefinition st3 env.returnVar (toString env.handlerResult)
      else st3
    let st5 := if capture
      then addDefinition st4 env.captureVar (if st4.errorFlag then "-1" else "0")
      else st4
    fin true st5

/-- Modelled from the spec: absent capture an error propagates normally —
the dispatching interpreter (outside the embedded sources) marks the
global error flag when a command reports failure. -/
def runCTestCommand (env : HandlerCmdEnv) (st : InterpState) :
    Bool × InterpState :=
  let r := ctestHandlerInitialPass env st
  if r.1 then r else (false, { r.2 with errorFlag := true })

/-- Whether any fallible sub-operation of the invocation fails: duplicate
keyword, unknown argument, handler initialization, working-directory
change, or error raised during handler execution. -/
def handlerCmdFails (env : HandlerCmdEnv) : Bool :=
  (detectDuplicateKeyword env.parsedKeywords).isSome
    || !env.unparsed.isEmpty
    || !env.handlerInitOk
    || !env.workdirOk
    || env.handlerSetsError

/-! ## The build handler (`cmCTestBuildCommand::InitializeHandler`)

Inputs consulted by the build handler initialization: ambient variables
(`cmValue`s: defined or not, possibly empty), the parsed command
arguments, the ctest config type, and the set of generator names
`CreateGlobalGenerator` accepts. -/

/-- `cmNonempty` on a `cmValue`: defined and non-empty. -/
def nonemptyOpt : Option String → Bool
  | some s => s != ""
  | none => false

structure BuildInitEnv where
  buildCommandVar : Option String
  generatorVar : Option String
  knownGenerators : List String
  argConfiguration : String
  buildConfigurationVar : Option String
  configType : String
  argFlags : String
  flagsVar : String
  argTarget : String
  targetVar : String
deriving Repr

inductive BuildInitResult
  | okGenerator (effConfig effFlags effTarget : String)
  | okCustom (makeCommand : String)
  | fatalGenerator (msg : String)
  | errNoProject (msg : String)
deriving Repr, DecidableEq

/-- The diagnostic issued when neither a generator nor an explicit build
command is available. -/
def hasNoProjectMsg : String :=
  "has no project to build. If this is a \"built with CMake\" project, verify that CTEST_CMAKE_GENERATOR is set. Otherwise, set CTEST_BUILD_COMMAND to build the project with a custom command line."

/-- Effective build configuration: CONFIGURATION argument, else
CTEST_BUILD_CONFIGURATION, else the ctest config type. -/
def effectiveBuildConfig (e : BuildInitEnv) : String :=
  if e.argConfiguration != "" then e.argConfiguration
  else if nonemptyOpt e.buildConfigurationVar then e.buildConfigurationVar.getD ""
  else e.configType

/-- Effective build flags: FLAGS argument, else CTEST_BUILD_FLAGS. -/
def effectiveBuildFlags (e : BuildInitEnv) : String :=
  if e.argFlags != "" then e.argFlags else e.flagsVar

/-- Effective build target: TARGET argument, else CTEST_BUILD_TARGET. -/
def effectiveBuildTarget (e : BuildInitEnv) : String :=
  if e.argTarget != "" then e.argTarget else e.targetVar

/-- `cmCTestBuildCommand::InitializeHandler`: an explicit
CTEST_BUILD_COMMAND wins outright; otherwise a generator-based build
command is composed from the effective configuration (defaulted to
"Release" when still empty), flags and target; with no generator either,
the handler reports "has no project to build" and initialization fails.
The second emptiness check assigning "Debug" is kept from the source
though unreachable after the "Release" default. -/
def ctestBuildInitHandler (e : BuildInitEnv) : BuildInitResult :=
  if nonemptyOpt e.buildCommandVar then
    .okCustom (e.buildCommandVar.getD "")
  else
    let cmakeBuildConfiguration := effectiveBuildConfig e
    let cmakeBuildAdditionalFlags := effectiveBuildFlags e
    let cmakeBuildTarget := effectiveBuildTarget e
    if nonemptyOpt e.generatorVar then
      let cfg1 := if cmakeBuildConfiguration = "" then "Release"
                  else cmakeBuildConfiguration
      if e.knownGenerators.contains (e.generatorVar.getD "") then
        let cfg2 := if cfg1 = "" then "Debug" else cfg1
        .okGenerator cfg2 cmakeBuildAdditionalFlags cmakeBuildTarget
      else
        .fatalGenerator
          ("could not create generator named \"" ++ e.generatorVar.getD "" ++ "\"")
    else .errNoProject hasNoProjectMsg

/-- The sole seeding of the ctest config type inside `InitialPass`: the
CTEST_CONFIGURATION_TYPE script variable, when defined, trumps the value
seeded from the -C command line. -/
def seededConfigType (ctestConfigurationTypeVar : Option String)
    (fromCmdLineC : String) : String :=
  match ctestConfigurationTypeVar with
  | some v => v
  | none => fromCmdLineC

/-- Whether handler initialization produced a handler
(`InitializeHandler() != nullptr`). -/
def buildInitOk (e : BuildInitEnv) : Bool :=
  match ctestBuildInitHandler e with
  | .okGenerator _ _ _ => true
  | .okCustom _ => true
  | .fatalGenerator _ => false
  | .errNoProject _ => false

/-- The full ctest_build invocation: the generic dispatch run with the
build handler's initialization outcome. -/
def runCTestBuildCommand (e : BuildInitEnv) (env : HandlerCmdEnv)
    (st : InterpState) : Bool × InterpState :=
  runCTestCommand { env with handlerInitOk := buildInitOk e } st

/-! ## The export() command (`cmExportCommand.cxx`)

State consulted by the TARGETS/EXPORT forms: alias names
(`cmMakefile::IsAlias`), the project's targets with their utility flag
(`cmGlobalGenerator::FindTarget` / `GetType() == UTILITY`), the known
export set names (`GetExportSets`), the files already bound to a build
export generator (`GetExportedTargetsFile`), and the CMP0103 policy
status. -/

inductive PolicyStatus
  | OLD
  | WARN
  | NEW
deriving Repr, DecidableEq

inductive TargetClass
  | ordinary
  | utility
  | alias
  | unknown
deriving Repr, DecidableEq

structure ExportGlobalState where
  aliases : List String
  projectTargets : List (String × Bool)
  exportSets : List String
  boundFiles : List String
  cmp0103 : PolicyStatus
deriving Repr, DecidableEq

/-- How a name resolves in the TARGETS loop: alias first
(`mf.IsAlias`), then `FindTarget` with the UTILITY check, else unknown. -/
def classifyTarget (st : ExportGlobalState) (n : String) : TargetClass :=
  if st.aliases.contains n then .alias
  else match st.projectTargets.find? (fun p => p.1 == n) with
    | some p => if p.2 then .utility else .ordinary
    | none => .unknown

def aliasErrMsg (t : String) : String :=
  "given ALIAS target \"" ++ t ++ "\" which may not be exported."

def customErrMsg (t : String) : String :=
  "given custom target \"" ++ t ++ "\" which may not be exported."

def notBuiltErrMsg (t : String) : String :=
  "given target \"" ++ t ++ "\" which is not built by this project."

/-- The TARGETS validation loop: each name is classified; the first
non-ordinary name aborts with its error; ordinary names are collected as
TargetExport entries (name, empty xcframework location). -/
def validateTargets (st : ExportGlobalState) :
    List String → Except String (List (String × String))
  | [] => .ok []
  | t :: ts =>
    match classifyTarget st t with
    | .alias => .error (aliasErrMsg t)
    | .utility => .error (customErrMsg t)
    | .unknown => .error (notBuiltErrMsg t)
    | .ordinary =>
      match validateTargets st ts with
      | .error e => .error e
      | .ok l => .ok ((t, "") :: l)

def dupErrMsg (filenameArg : String) : String :=
  "command already specified for the file\n  " ++ filenameArg ++
    "\nDid you miss \x27APPEND\x27 keyword?"

def dupWarnMsg (filenameArg : String) : String :=
  "export() command already specified for the file\n  " ++ filenameArg ++
    "\nDid you miss \x27APPEND\x27 keyword?"

/-- Modelled from the spec: the compatibility warning text prepended by
`cmPolicies::GetPolicyWarning(CMP0103)` (outside the embedded sources). -/
def cmp0103PolicyWarning : String :=
  "Policy CMP0103 is not set: multiple export() with same FILE without APPEND is not allowed."

def bindExportFile (st : ExportGlobalState) (fname : String) : ExportGlobalState :=
  { st with boundFiles := st.boundFiles ++ [fname] }

/-- The CMP0103 gate: with a generator already bound to the file, WARN
warns and proceeds, OLD silently proceeds, NEW fails with the
already-specified error.  Returns the warnings to issue. -/
def exportDuplicateFileCheck (st : ExportGlobalState)
    (filenameArg fname : String) : Except String (List String) :=
  if st.boundFiles.contains fname then
    match st.cmp0103 with
    | .WARN => .ok [cmp0103PolicyWarning ++ "\n" ++ dupWarnMsg filenameArg]
    | .OLD => .ok []
    | .NEW => .error (dupErrMsg filenameArg)
  else .ok []

inductive ExportMode
  | exportSet (name : String)
  | targetList (names : List String) (append : Bool)
deriving Repr, DecidableEq

structure ExportOk where
  warnings : List String
  appendedToExisting : Bool
  state : ExportGlobalState
deriving Repr, DecidableEq

/-- The tail of `cmExportCommand` for the EXPORT and TARGETS forms, from
target/set resolution through the duplicate-file policy gate to binding a
new export file generator.  `filenameArg` is the raw FILE argument (used
in messages), `fname` the resolved output file. -/
def exportFileCommand (st : ExportGlobalState) (mode : ExportMode)
    (filenameArg fname : String) : Except String ExportOk :=
  match mode with
  | .exportSet name =>
    if st.exportSets.contains name = false then
      .error ("Export set \"" ++ name ++ "\" not found.")
    else
      match exportDuplicateFileCheck st filenameArg fname with
      | .error e => .error e
      | .ok ws => .ok ⟨ws, false, bindExportFile st fname⟩
  | .targetList names append =>
    match validateTargets st names with
    | .error e => .error e
    | .ok _ts =>
      if append && st.boundFiles.contains fname then
        .ok ⟨[], true, st⟩
      else
        match exportDuplicateFileCheck st filenameArg fname with
        | .error e => .error e
        | .ok ws => .ok ⟨ws, false, bindExportFile st fname⟩

/-! ## export(SETUP …) package dependencies -/

inductive PkgDepEnabled
  | Auto
  | On
  | Off
deriving Repr, DecidableEq

structure PackageDependency where
  enabled : PkgDepEnabled
  extraArguments : List String
deriving Repr, DecidableEq

structure ExportSetState where
  packageDependencies : List (String × PackageDependency)
deriving Repr, DecidableEq

/-- `cmExportSet::GetPackageDependencyForSetup`: the existing record, or a
fresh one inserted into the set.  Modelled from the spec: the fresh
record's enabled state defaults to Auto with no extra arguments
(`cmExportSet` lives outside the embedded sources). -/
def getPackageDependencyForSetup (es : ExportSetState) (pkg : String) :
    PackageDependency × ExportSetState :=
  match es.packageDependencies.find? (fun p => p.1 == pkg) with
  | some p => (p.2, es)
  | none => (⟨.Auto, []⟩, ⟨es.packageDependencies ++ [(pkg, ⟨.Auto, []⟩)]⟩)

/-- Write back the (mutated) record under its package name. -/
def setPackageDependency (es : ExportSetState) (pkg : String)
    (d : PackageDependency) : ExportSetState :=
  ⟨es.packageDependencies.map fun p => if p.1 == pkg then (pkg, d) else p⟩

/-- One PACKAGE_DEPENDENCY group of export(SETUP), after argument
parsing: `pkg` is the group's leading token, `enabledStr` the bound
ENABLED value ("" when absent) and `extraArgs` the bound EXTRA_ARGS list.
Mirrors the SETUP loop body: the record is obtained (created on first
reference), a non-empty ENABLED value is interpreted — "AUTO", then the
false-likeness test, then the true-likeness test, else a fatal error
issued before any mutation of the record — and EXTRA_ARGS are appended in
order, duplicates kept.  `isOff`/`isOn` are the truthiness recognizers
`cmIsOff`/`cmIsOn` (defined outside the embedded sources), taken as
parameters. -/
def processPackageDependency (isOff isOn : String → Bool)
    (es : ExportSetState) (pkg enabledStr : String)
    (extraArgs : List String) : ExportSetState × Option String :=
  let r0 := (getPackageDependencyForSetup es pkg).1
  let es1 := (getPackageDependencyForSetup es pkg).2
  let en : Except String PkgDepEnabled :=
    if enabledStr = "" then .ok r0.enabled
    else if enabledStr = "AUTO" then .ok .Auto
    else if isOff enabledStr then .ok .Off
    else if isOn enabledStr then .ok .On
    else .error ("Invalid enable setting for package dependency: \"" ++
      enabledStr ++ "\"")
  match en with
  | .error e => (es1, some e)
  | .ok en1 =>
    (setPackageDependency es1 pkg ⟨en1, r0.extraArguments ++ extraArgs⟩, none)

/-! ## export(PACKAGE …) (`HandlePackage`) and the registry backends -/

/-- The ambient context of `HandlePackage`: the CMP0090 status, the two
gating variables (`cmMakefile::IsOn`), the current binary directory, and
the content digest (`cmCryptoHash` MD5, an external collaborator). -/
structure PackageCmdEnv where
  cmp0090 : PolicyStatus
  exportNoPackageRegistryOn : Bool
  exportPackageRegistryOn : Bool
  currentBinaryDirectory : String
  digest : String → String

structure PackageCmdResult where
  success : Bool
  errMsg : Option String
  stored : Option (String × String × String)
deriving Repr, DecidableEq

/-- One character of the class `[A-Za-z0-9_.-]`. -/
def isPkgNameChar (c : Char) : Bool :=
  (c.isAlpha || c.isDigit) || (c == '_' || c == '.' || c == '-')

/-- The anchored pattern `^[A-Za-z0-9_.-]+$` used by `HandlePackage`:
it matches exactly the non-empty strings over that class. -/
def packageNamePatternMatch (s : String) : Bool :=
  s.data.all isPkgNameChar && !s.data.isEmpty

/-- `HandlePackage` after the name is parsed: empty-name check, pattern
check, the CMP0090 gate (OLD/WARN: store unless
CMAKE_EXPORT_NO_PACKAGE_REGISTRY; NEW: store only if
CMAKE_EXPORT_PACKAGE_REGISTRY), then the registry store of the current
binary directory under the digest of its own content.  `stored` records
the `StorePackageRegistry` call (package, content, hash), if any. -/
def handlePackageNamed (env : PackageCmdEnv) (pkg : String) :
    PackageCmdResult :=
  if pkg = "" then
    ⟨false, some "PACKAGE must be given a package name.", none⟩
  else if packageNamePatternMatch pkg = false then
    ⟨false, some ("PACKAGE given invalid package name \"" ++ pkg ++
      "\".  Package names must match \"^[A-Za-z0-9_.-]+$\"."), none⟩
  else
    match env.cmp0090 with
    | .WARN | .OLD =>
      if env.exportNoPackageRegistryOn then ⟨true, none, none⟩
      else ⟨true, none, some (pkg, env.currentBinaryDirectory,
        env.digest env.currentBinaryDirectory)⟩
    | .NEW =>
      if !env.exportPackageRegistryOn then ⟨true, none, none⟩
      else ⟨true, none, some (pkg, env.currentBinaryDirectory,
        env.digest env.currentBinaryDirectory)⟩

/-- `HandlePackage` argument scan: the first argument after PACKAGE is
the package name; any further argument is an unknown-argument error; with
no argument the name stays empty. -/
def handlePackage (env : PackageCmdEnv) (args : List String) :
    PackageCmdResult :=
  match args with
  | [] => handlePackageNamed env ""
  | [_cmd] => handlePackageNamed env ""
  | [_cmd, pkg] => handlePackageNamed env pkg
  | _cmd :: _pkg :: extra :: _ =>
    ⟨false, some ("PACKAGE given unknown argument: " ++ extra), none⟩

/-- An observable operation of a registry backend against the OS
key-value store. -/
inductive RegOp
  | checkExists (pkg hash : String) (found : Bool)
  | write (pkg hash value : String)
deriving Repr, DecidableEq

/-- The platform key-value store: entries keyed by (package, hash).
Backend A abstracts `HKCU\Software\Kitware\CMake\Packages\<package>`
value `<hash>`; backend B abstracts
`<home>/.cmake/packages/<package>/<hash>`. -/
structure RegistryState where
  entries : List ((String × String) × String)
deriving Repr, DecidableEq

def keyMatch (pkg hash : String) (p : (String × String) × String) : Bool :=
  p.1.1 == pkg && p.1.2 == hash

def regLookup (st : RegistryState) (pkg hash : String) : Option String :=
  (st.entries.find? (keyMatch pkg hash)).map fun p => p.2

def regInsert (st : RegistryState) (pkg hash value : String) :
    RegistryState :=
  ⟨(st.entries.filter fun p => !keyMatch pkg hash p) ++ [((pkg, hash), value)]⟩

def countEntries (st : RegistryState) (pkg hash : String) : Nat :=
  (st.entries.filter (keyMatch pkg hash)).length

/-- POSIX `StorePackageRegistry`: an existence check
(`cmSystemTools::FileExists`) guards the write; the file content is the
content followed by a newline. -/
def storePackageRegistryPosix (st : RegistryState)
    (pkg content hash : String) : RegistryState × List RegOp :=
  match regLookup st pkg hash with
  | some _ => (st, [.checkExists pkg hash true])
  | none => (regInsert st pkg hash (content ++ "\n"),
      [.checkExists pkg hash false, .write pkg hash (content ++ "\n")])

/-- Windows `StorePackageRegistry`: `RegCreateKeyExW` then
`RegSetValueExW` — the value is written unconditionally, with no
existence check. -/
def storePackageRegistryWindows (st : RegistryState)
    (pkg content hash : String) : RegistryState × List RegOp :=
  (regInsert st pkg hash content, [.write pkg hash content])

/-! # Theorems -/

/-! ## Order lemmas for the keyword sort -/

theorem char_toNat_inj {a b : Char} (h : a.toNat = b.toNat) : a = b := by
  have hv : a.val = b.val := by
    unfold Char.toNat at h
    exact UInt32.toNat.inj h
  exact Char.eq_of_val_eq hv

theorem charListLe_cons (a b : Char) (as bs : List Char) :
    charListLe (a :: as) (b :: bs) = true ↔
      a.toNat < b.toNat ∨ (a.toNat = b.toNat ∧ charListLe as bs = true) := by
  simp only [charListLe]
  split_ifs with h1 h2
  · simp [h1]
  · simp only [Bool.false_eq_true, false_iff]
    rintro (h | ⟨h, -⟩) <;> omega
  · have heq : a.toNat = b.toNat := by omega
    constructor
    · intro h
      exact Or.inr ⟨heq, h⟩
    · rintro (h | ⟨-, h⟩)
      · omega
      · exact h

theorem charListLe_total : ∀ x y : List Char,
    charListLe x y = true ∨ charListLe y x = true
  | [], _ => Or.inl rfl
  | _ :: _, [] => Or.inr rfl
  | a :: as, b :: bs => by
    rcases Nat.lt_trichotomy a.toNat b.toNat with h | h | h
    · exact Or.inl ((charListLe_cons a b as bs).mpr (Or.inl h))
    · rcases charListLe_total as bs with ih | ih
      · exact Or.inl ((charListLe_cons a b as bs).mpr (Or.inr ⟨h, ih⟩))
      · exact Or.inr ((charListLe_cons b a bs as).mpr (Or.inr ⟨h.symm, ih⟩))
    · exact Or.inr ((charListLe_cons b a bs as).mpr (Or.inl h))

theorem charListLe_trans : ∀ x y z : List Char, charListLe x y = true →
    charListLe y z = true → charListLe x z = true
  | [], _, _, _, _ => rfl
  | _ :: _, [], _, h1, _ => by simp [charListLe] at h1
  | _ :: _, _ :: _, [], _, h2 => by simp [charListLe] at h2
  | a :: as, b :: bs, c :: cs, h1, h2 => by
    rw [charListLe_cons] at h1 h2 ⊢
    rcases h1 with h1 | ⟨h1e, h1r⟩
    · rcases h2 with h2 | ⟨h2e, h2r⟩
      · exact Or.inl (by omega)
      · exact Or.inl (by omega)
    · rcases h2 with h2 | ⟨h2e, h2r⟩
      · exact Or.inl (by omega)
      · exact Or.inr ⟨by omega, charListLe_trans as bs cs h1r h2r⟩

theorem charListLe_antisymm : ∀ x y : List Char, charListLe x y = true →
    charListLe y x = true → x = y
  | [], [], _, _ => rfl
  | [], _ :: _, _, h2 => by simp [charListLe] at h2
  | _ :: _, [], h1, _ => by simp [charListLe] at h1
  | a :: as, b :: bs, h1, h2 => by
    rw [charListLe_cons] at h1 h2
    have hab : a.toNat = b.toNat := by
      rcases h1 with h1 | ⟨h1e, -⟩ <;> rcases h2 with h2 | ⟨h2e, -⟩ <;> omega
    have hrest : as = bs := by
      rcases h1 with h1 | ⟨-, h1r⟩
      · exact absurd hab (by omega)
      · rcases h2 with h2 | ⟨-, h2r⟩
        · exact absurd hab (by omega)
        · exact charListLe_antisymm as bs h1r h2r
    rw [char_toNat_inj hab, hrest]

theorem stringLe_antisymm {a b : String} (h1 : stringLe a b)
    (h2 : stringLe b a) : a = b :=
  congrArg String.mk (charListLe_antisymm _ _ h1 h2)

instance : IsTotal String stringLe :=
  ⟨fun a b => charListLe_total a.data b.data⟩

instance : IsTrans String stringLe :=
  ⟨fun a b c => charListLe_trans a.data b.data c.data⟩

/-! ## Duplicate detection lemmas -/

theorem adjacentFind_isSome_of_sorted (l : List String) (hs : l.Sorted stringLe) :
    (adjacentFind l).isSome ↔ ¬ l.Nodup := by
  induction l with
  | nil => simp [adjacentFind]
  | cons a t ih =>
    cases t with
    | nil => simp [adjacentFind]
    | cons b u =>
      rw [List.sorted_cons] at hs
      by_cases hab : a = b
      · subst hab
        simp only [adjacentFind, eq_self_iff_true, if_true, Option.isSome_some,
          true_iff]
        intro hnd
        exact (List.nodup_cons.mp hnd).1 (List.mem_cons_self a u)
      · have hfind : adjacentFind (a :: b :: u) = adjacentFind (b :: u) := by
          simp [adjacentFind, hab]
        have hanotin : a ∉ b :: u := by
          intro hmem
          rcases List.mem_cons.mp hmem with h | h
          · exact hab h
          · have hba : stringLe b a := ((List.sorted_cons.mp hs.2).1) a h
            have hab' : stringLe a b := hs.1 b (List.mem_cons_self b u)
            exact hab (stringLe_antisymm hab' hba)
        rw [hfind, ih hs.2]
        constructor
        · intro hnd hcontra
          exact hnd (List.nodup_cons.mp hcontra).2
        · intro hnd hcontra
          exact hnd (List.nodup_cons.mpr ⟨hanotin, hcontra⟩)

theorem adjacentFind_count (l : List String) (k : String)
    (h : adjacentFind l = some k) : 2 ≤ l.count k := by
  induction l with
  | nil => simp [adjacentFind] at h
  | cons a t ih =>
    cases t with
    | nil => simp [adjacentFind] at h
    | cons b u =>
      by_cases hab : a = b
      · subst hab
        simp only [adjacentFind, eq_self_iff_true, if_true, Option.some_inj] at h
        subst h
        simp [List.count_cons]
      · have hfind : adjacentFind (a :: b :: u) = adjacentFind (b :: u) := by
          simp [adjacentFind, hab]
        rw [hfind] at h
        have := ih h
        calc 2 ≤ (b :: u).count k := by
                have h2 := ih h
                simpa using h2
          _ ≤ (a :: b :: u).count k := by
                simp only [List.count_cons]
                split <;> omega

theorem detectDuplicate_iff (ks : List String) :
    (detectDuplicateKeyword ks).isSome ↔ ∃ k, 2 ≤ ks.count k := by
  have hperm := List.perm_insertionSort stringLe ks
  have hs := List.sorted_insertionSort stringLe ks
  rw [detectDuplicateKeyword, adjacentFind_isSome_of_sorted _ hs,
    hperm.nodup_iff, List.nodup_iff_count_le_one]
  push_neg
  constructor
  · rintro ⟨k, hk⟩
    exact ⟨k, by omega⟩
  · rintro ⟨k, hk⟩
    exact ⟨k, by omega⟩

/-! ## Dispatch state lemmas -/

theorem errorFlag_addDefinition (st : InterpState) (n v : String) :
    (addDefinition st n v).errorFlag = st.errorFlag := rfl

theorem getDef_addDefinition_self (st : InterpState) (n v : String) :
    getDef (addDefinition st n v) n = some v := by
  simp [getDef, addDefinition]

theorem errorFlag_ite_addDefinition (c : Prop) [Decidable c]
    (st : InterpState) (n v : String) :
    (if c then addDefinition st n v else st).errorFlag = st.errorFlag := by
  split <;> rfl

theorem errorFlag_ite_addDefinition_flip (c : Prop) [Decidable c]
    (st : InterpState) (n v : String) :
    (if c then st else addDefinition st n v).errorFlag = st.errorFlag := by
  split <;> rfl

theorem defs_addDefinition (st : InterpState) (n v : String) :
    (addDefinition st n v).defs = (n, v) :: st.defs := rfl

theorem getDef_mk (e : Bool) (d : List (String × String)) (m : List String)
    (n : String) :
    getDef ⟨e, d, m⟩ n = ((d.find? fun p => p.1 == n).map fun p => p.2) := rfl

theorem runCTestCommand_contract (env : HandlerCmdEnv) (st : InterpState) :
    (env.captureVar ≠ "" →
      (runCTestCommand env st).1 = true ∧
      (runCTestCommand env st).2.errorFlag = st.errorFlag ∧
      (handlerCmdFails env = true →
        getDef (runCTestCommand env st).2 env.captureVar = some "-1") ∧
      (handlerCmdFails env = false →
        getDef (runCTestCommand env st).2 env.captureVar = some "0")) ∧
    (env.captureVar = "" →
      (handlerCmdFails env = true →
        (runCTestCommand env st).2.errorFlag = true) ∧
      (st.errorFlag = true → (runCTestCommand env st).2.errorFlag = true)) := by
  by_cases hc : env.captureVar = "" <;>
  cases hdup : detectDuplicateKeyword env.parsedKeywords <;>
  cases hemp : env.unparsed.isEmpty <;>
  cases hinit : env.handlerInitOk <;>
  cases hwork : env.workdirOk <;>
  cases hset : env.handlerSetsError <;>
  cases hst : st.errorFlag <;>
  simp_all [runCTestCommand, ctestHandlerInitialPass, handlerCmdFails,
    duplicateKeywordCheck, saveRestoreFinal, issueFatalMessage,
    errorFlag_addDefinition, getDef_addDefinition_self,
    errorFlag_ite_addDefinition, errorFlag_ite_addDefinition_flip,
    defs_addDefinition, getDef_mk, List.find?]

/-- A hard failure (unknown argument, handler initialization, or
working-directory change) without capture makes the command return
failure to its caller. -/
theorem runCTestCommand_hardFail (env : HandlerCmdEnv) (st : InterpState)
    (hc : env.captureVar = "")
    (h : (!env.unparsed.isEmpty || !env.handlerInitOk || !env.workdirOk) = true) :
    (runCTestCommand env st).1 = false := by
  cases hdup : detectDuplicateKeyword env.parsedKeywords <;>
  cases hemp : env.unparsed.isEmpty <;>
  cases hinit : env.handlerInitOk <;>
  cases hwork : env.workdirOk <;>
  simp_all [runCTestCommand, ctestHandlerInitialPass,
    duplicateKeywordCheck, saveRestoreFinal, issueFatalMessage]

/-! ## Claim C1 -/

/-- C1: for a ctest handler command invocation, if a capture variable was
supplied then any failing sub-operation (duplicate keyword, unknown
argument, handler initialization, working-directory change, or an error
raised during execution) leaves the capture variable set to "-1", the
global error flag restored to its exact pre-call value, and the command
returning success; a fully successful run sets the capture variable to
"0".  Without a capture variable, a failing sub-operation leaves the
global error flag set on return, and a flag set on entry is never
cleared. -/
theorem ctest_error_capture_contract (env : HandlerCmdEnv) (st : InterpState) :
    (env.captureVar ≠ "" →
      (runCTestCommand env st).1 = true ∧
      (runCTestCommand env st).2.errorFlag = st.errorFlag ∧
      (handlerCmdFails env = true →
        getDef (runCTestCommand env st).2 env.captureVar = some "-1") ∧
      (handlerCmdFails env = false →
        getDef (runCTestCommand env st).2 env.captureVar = some "0")) ∧
    (env.captureVar = "" →
      (handlerCmdFails env = true →
        (runCTestCommand env st).2.errorFlag = true) ∧
      (st.errorFlag = true → (runCTestCommand env st).2.errorFlag = true)) :=
  runCTestCommand_contract env st

/-- Witness for C1 at a concrete invocation: capture variable "V", an
unknown argument present, all later steps healthy. -/
theorem ctest_error_capture_contract_witness :
    (HandlerCmdEnv.mk [] ["BOGUS"] "V" "" true true 0 false).captureVar ≠ "" ∧
    (runCTestCommand (HandlerCmdEnv.mk [] ["BOGUS"] "V" "" true true 0 false)
        (InterpState.mk false [] [])).1 = true ∧
    getDef (runCTestCommand
        (HandlerCmdEnv.mk [] ["BOGUS"] "V" "" true true 0 false)
        (InterpState.mk false [] [])).2 "V" = some "-1" := by
  have h := (ctest_error_capture_contract
    (HandlerCmdEnv.mk [] ["BOGUS"] "V" "" true true 0 false)
    (InterpState.mk false [] [])).1 (by decide)
  exact ⟨by decide, h.1, h.2.2.1 (by decide)⟩

/-! ## Claim C9 -/

/-- C9: a single-value keyword supplied more than once is detected by
sorting the keywords actually seen and comparing adjacent elements — the
detection fires exactly when some keyword occurs at least twice, the
reported keyword is genuinely duplicated, and the check issues the fatal
message `Called with more than one value for <keyword>`. -/
theorem ctest_duplicate_keyword_detection (ks : List String) (st : InterpState) :
    ((detectDuplicateKeyword ks).isSome ↔ ∃ k, 2 ≤ ks.count k) ∧
    (∀ k, detectDuplicateKeyword ks = some k →
      2 ≤ ks.count k ∧
      duplicateKeywordCheck ks st =
        issueFatalMessage st ("Called with more than one value for " ++ k)) := by
  refine ⟨detectDuplicate_iff ks, ?_⟩
  intro k hk
  constructor
  · have h2 := adjacentFind_count _ _ hk
    have hperm := List.perm_insertionSort stringLe ks
    calc 2 ≤ (ks.insertionSort stringLe).count k := h2
      _ = ks.count k := hperm.count_eq k
  · simp [duplicateKeywordCheck, hk]

/-- Witness for C9: the keyword BUILD supplied twice is detected and
issues the fatal duplicate-keyword message. -/
theorem ctest_duplicate_keyword_detection_witness :
    2 ≤ (["BUILD", "QUIET", "BUILD"] : List String).count "BUILD" ∧
    duplicateKeywordCheck ["BUILD", "QUIET", "BUILD"] (InterpState.mk false [] []) =
      issueFatalMessage (InterpState.mk false [] [])
        ("Called with more than one value for " ++ "BUILD") :=
  (ctest_duplicate_keyword_detection ["BUILD", "QUIET", "BUILD"]
    (InterpState.mk false [] [])).2 "BUILD" (by decide)

/-! ## Claim C7 -/

/-- C7: the effective build configuration is the explicit CONFIGURATION
argument when non-empty, else a non-empty CTEST_BUILD_CONFIGURATION, else
the ctest config type (itself seeded from CTEST_CONFIGURATION_TYPE over
the -C command line value), else the computed default "Release" when a
generator name is present; FLAGS wins over CTEST_BUILD_FLAGS and TARGET
over CTEST_BUILD_TARGET by the same explicit-over-ambient priority. -/
theorem ctest_build_config_fallback_chain (e : BuildInitEnv)
    (hcmd : nonemptyOpt e.buildCommandVar = false)
    (hgen : nonemptyOpt e.generatorVar = true)
    (hknown : e.knownGenerators.contains (e.generatorVar.getD "") = true) :
    (e.argConfiguration ≠ "" → effectiveBuildConfig e = e.argConfiguration) ∧
    (e.argConfiguration = "" → nonemptyOpt e.buildConfigurationVar = true →
      effectiveBuildConfig e = e.buildConfigurationVar.getD "") ∧
    (e.argConfiguration = "" → nonemptyOpt e.buildConfigurationVar = false →
      effectiveBuildConfig e = e.configType) ∧
    (effectiveBuildConfig e ≠ "" →
      ctestBuildInitHandler e =
        .okGenerator (effectiveBuildConfig e) (effectiveBuildFlags e)
          (effectiveBuildTarget e)) ∧
    (effectiveBuildConfig e = "" →
      ctestBuildInitHandler e =
        .okGenerator "Release" (effectiveBuildFlags e) (effectiveBuildTarget e)) ∧
    (e.argFlags ≠ "" → effectiveBuildFlags e = e.argFlags) ∧
    (e.argFlags = "" → effectiveBuildFlags e = e.flagsVar) ∧
    (e.argTarget ≠ "" → effectiveBuildTarget e = e.argTarget) ∧
    (e.argTarget = "" → effectiveBuildTarget e = e.targetVar) ∧
    (∀ v p, seededConfigType (some v) p = v) ∧
    (∀ p, seededConfigType none p = p) := by
  refine ⟨?_, ?_, ?_, ?_, ?_, ?_, ?_, ?_, ?_, fun v p => rfl, fun p => rfl⟩
  · intro h
    simp [effectiveBuildConfig, h]
  · intro h hv
    simp [effectiveBuildConfig, h, hv]
  · intro h hv
    simp [effectiveBuildConfig, h, hv]
  · intro h
    simp [ctestBuildInitHandler, hcmd, hgen, hknown, h]
    simpa using hknown
  · intro h
    simp [ctestBuildInitHandler, hcmd, hgen, hknown, h]
    simpa using hknown
  · intro h
    simp [effectiveBuildFlags, h]
  · intro h
    simp [effectiveBuildFlags, h]
  · intro h
    simp [effectiveBuildTarget, h]
  · intro h
    simp [effectiveBuildTarget, h]

/-- Witness for C7: empty CONFIGURATION argument, defined-but-empty
CTEST_BUILD_CONFIGURATION and empty config type fall through to the
computed default "Release"; flags and target come from the ambient
variables. -/
theorem ctest_build_config_fallback_chain_witness :
    ctestBuildInitHandler
      (BuildInitEnv.mk none (some "Ninja") ["Ninja"] "" (some "") "" "" "-j4" "" "tgt") =
      .okGenerator "Release" "-j4" "tgt" := by
  have h := ctest_build_config_fallback_chain
    (BuildInitEnv.mk none (some "Ninja") ["Ninja"] "" (some "") "" "" "-j4" "" "tgt")
    (by decide) (by decide) (by decide)
  have h5 := h.2.2.2.2.1 (by decide)
  rw [h5]
  decide

/-! ## Claim C8 -/

/-- C8: with neither CTEST_BUILD_COMMAND nor CTEST_CMAKE_GENERATOR
non-empty, build handler initialization fails with the "has no project to
build" diagnostic, and the invocation returns failure (or, with a capture
variable, returns success with the capture variable set to "-1" and the
error flag restored). -/
theorem ctest_build_no_project (e : BuildInitEnv) (env : HandlerCmdEnv)
    (st : InterpState)
    (hcmd : nonemptyOpt e.buildCommandVar = false)
    (hgen : nonemptyOpt e.generatorVar = false) :
    ctestBuildInitHandler e = .errNoProject hasNoProjectMsg ∧
    "has no project to build".data.isPrefixOf hasNoProjectMsg.data = true ∧
    (env.captureVar = "" →
      (runCTestBuildCommand e env st).1 = false ∧
      (runCTestBuildCommand e env st).2.errorFlag = true) ∧
    (env.captureVar ≠ "" →
      (runCTestBuildCommand e env st).1 = true ∧
      getDef (runCTestBuildCommand e env st).2 env.captureVar = some "-1" ∧
      (runCTestBuildCommand e env st).2.errorFlag = st.errorFlag) := by
  have hinit : buildInitOk e = false := by
    simp [buildInitOk, ctestBuildInitHandler, hcmd, hgen]
  have hfails : handlerCmdFails { env with handlerInitOk := buildInitOk e } = true := by
    simp [handlerCmdFails, hinit]
  simp only [runCTestBuildCommand]
  refine ⟨?_, by decide, ?_, ?_⟩
  · simp [ctestBuildInitHandler, hcmd, hgen]
  · intro hc
    have hcontract :=
      (runCTestCommand_contract { env with handlerInitOk := buildInitOk e } st).2 hc
    refine ⟨?_, hcontract.1 hfails⟩
    exact runCTestCommand_hardFail _ st hc (by simp [hinit])
  · intro hc
    have hcontract :=
      (runCTestCommand_contract { env with handlerInitOk := buildInitOk e } st).1 hc
    exact ⟨hcontract.1, hcontract.2.2.1 hfails, hcontract.2.1⟩

/-- Witness for C8: no build command and no generator; with capture
variable "V" the invocation returns success and records "-1". -/
theorem ctest_build_no_project_witness :
    ctestBuildInitHandler (BuildInitEnv.mk none none [] "" none "" "" "" "" "") =
      .errNoProject hasNoProjectMsg ∧
    (runCTestBuildCommand (BuildInitEnv.mk none none [] "" none "" "" "" "" "")
      (HandlerCmdEnv.mk [] [] "V" "" true true 0 false)
      (InterpState.mk false [] [])).1 = true ∧
    getDef (runCTestBuildCommand (BuildInitEnv.mk none none [] "" none "" "" "" "" "")
      (HandlerCmdEnv.mk [] [] "V" "" true true 0 false)
      (InterpState.mk false [] [])).2 "V" = some "-1" := by
  have h := ctest_build_no_project (BuildInitEnv.mk none none [] "" none "" "" "" "" "")
    (HandlerCmdEnv.mk [] [] "V" "" true true 0 false)
    (InterpState.mk false [] []) (by decide) (by decide)
  exact ⟨h.1, (h.2.2.2 (by decide)).1, (h.2.2.2 (by decide)).2.1⟩

/-! ## Export target validation lemmas -/

theorem validateTargets_ok_of_ordinary (st : ExportGlobalState)
    (names : List String) (h : ∀ m ∈ names, classifyTarget st m = .ordinary) :
    validateTargets st names = .ok (names.map fun t => (t, "")) := by
  induction names with
  | nil => rfl
  | cons t ts ih =>
    have ht := h t (List.mem_cons_self t ts)
    have hts := ih fun m hm => h m (List.mem_cons_of_mem t hm)
    simp [validateTargets, ht, hts]

theorem validateTargets_ok_inv (st : ExportGlobalState) :
    ∀ (names : List String) (l : List (String × String)),
      validateTargets st names = .ok l →
      (∀ m ∈ names, classifyTarget st m = .ordinary) ∧
      l = names.map fun t => (t, "")
  | [], l, h => by
    simp [validateTargets] at h
    simp [h.symm]
  | t :: ts, l, h => by
    cases hc : classifyTarget st t <;>
      simp [validateTargets, hc] at h
    cases hv : validateTargets st ts with
    | error e => rw [hv] at h; exact absurd h (by simp)
    | ok l' =>
      rw [hv] at h
      simp at h
      have := validateTargets_ok_inv st ts l' hv
      refine ⟨?_, ?_⟩
      · intro m hm
        rcases List.mem_cons.mp hm with hm | hm
        · rw [hm]; exact hc
        · exact this.1 m hm
      · rw [← h, this.2]
        simp

/-! ## Claim C5 -/

/-- C5: in the TARGETS form, a name resolving to an alias fails with the
"ALIAS target … may not be exported" error, a utility target with the
"custom target … may not be exported" error, an unresolvable name with
the "not built by this project" error; validation succeeds exactly when
every name is an ordinary target, and then the export list is precisely
those targets. -/
theorem export_targets_validation (st : ExportGlobalState)
    (names pre post : List String) (n : String) :
    (validateTargets st names = .ok (names.map fun t => (t, "")) ↔
      ∀ m ∈ names, classifyTarget st m = .ordinary) ∧
    ((∀ m ∈ pre, classifyTarget st m = .ordinary) →
      (classifyTarget st n = .alias →
        validateTargets st (pre ++ n :: post) = .error (aliasErrMsg n)) ∧
      (classifyTarget st n = .utility →
        validateTargets st (pre ++ n :: post) = .error (customErrMsg n)) ∧
      (classifyTarget st n = .unknown →
        validateTargets st (pre ++ n :: post) = .error (notBuiltErrMsg n))) := by
  constructor
  · constructor
    · intro h
      exact (validateTargets_ok_inv st names _ h).1
    · exact validateTargets_ok_of_ordinary st names
  · induction pre with
    | nil =>
      intro _
      exact ⟨fun hcls => by simp [validateTargets, hcls],
             fun hcls => by simp [validateTargets, hcls],
             fun hcls => by simp [validateTargets, hcls]⟩
    | cons p ps ih =>
      intro hpre
      have hp := hpre p (List.mem_cons_self p ps)
      have hps := ih fun m hm => hpre m (List.mem_cons_of_mem p hm)
      exact ⟨fun hcls => by simp [validateTargets, hp, hps.1 hcls],
             fun hcls => by simp [validateTargets, hp, hps.2.1 hcls],
             fun hcls => by simp [validateTargets, hp, hps.2.2 hcls]⟩

/-- Witness for C5: an ordinary target followed by an alias fails with
the alias error. -/
theorem export_targets_validation_witness :
    validateTargets
      (ExportGlobalState.mk ["alia"] [("util", true), ("lib", false)] ["es"] [] .NEW)
      ["lib", "alia"] = .error (aliasErrMsg "alia") := by
  have h := (export_targets_validation
    (ExportGlobalState.mk ["alia"] [("util", true), ("lib", false)] ["es"] [] .NEW)
    ["lib"] ["lib"] [] "alia").2 (by decide)
  exact h.1 (by decide)

/-! ## Claim C2 -/

/-- C2: for both the TARGETS and EXPORT forms, a file already bound to a
generator without APPEND fails with the "command already specified for
the file … Did you miss APPEND" error when CMP0103 is NEW, proceeds
silently when OLD, and proceeds with a compatibility warning when
WARN. -/
theorem export_duplicate_file_policy (st : ExportGlobalState)
    (filenameArg fname setName : String) (names : List String)
    (hbound : st.boundFiles.contains fname = true)
    (hset : st.exportSets.contains setName = true)
    (hnames : ∀ m ∈ names, classifyTarget st m = .ordinary) :
    (st.cmp0103 = .NEW →
      exportFileCommand st (.exportSet setName) filenameArg fname =
        .error (dupErrMsg filenameArg) ∧
      exportFileCommand st (.targetList names false) filenameArg fname =
        .error (dupErrMsg filenameArg)) ∧
    (st.cmp0103 = .OLD →
      exportFileCommand st (.exportSet setName) filenameArg fname =
        .ok ⟨[], false, bindExportFile st fname⟩ ∧
      exportFileCommand st (.targetList names false) filenameArg fname =
        .ok ⟨[], false, bindExportFile st fname⟩) ∧
    (st.cmp0103 = .WARN →
      exportFileCommand st (.exportSet setName) filenameArg fname =
        .ok ⟨[cmp0103PolicyWarning ++ "\n" ++ dupWarnMsg filenameArg], false,
          bindExportFile st fname⟩ ∧
      exportFileCommand st (.targetList names false) filenameArg fname =
        .ok ⟨[cmp0103PolicyWarning ++ "\n" ++ dupWarnMsg filenameArg], false,
          bindExportFile st fname⟩) := by
  have hv := validateTargets_ok_of_ordinary st names hnames
  have hbound' : fname ∈ st.boundFiles := by simpa using hbound
  have hset' : setName ∈ st.exportSets := by simpa using hset
  refine ⟨fun hp => ?_, fun hp => ?_, fun hp => ?_⟩ <;>
    exact ⟨by simp [exportFileCommand, exportDuplicateFileCheck, hbound, hset,
             hbound', hset', hp, hv],
           by simp [exportFileCommand, exportDuplicateFileCheck, hbound, hset,
             hbound', hset', hp, hv]⟩

/-- Witness for C2: a second TARGETS export to an already-bound file
without APPEND under CMP0103 NEW fails with the already-specified
error. -/
theorem export_duplicate_file_policy_witness :
    exportFileCommand
      (ExportGlobalState.mk [] [("lib", false)] ["es"] ["/b/out.cmake"] .NEW)
      (.targetList ["lib"] false) "out.cmake" "/b/out.cmake" =
      .error (dupErrMsg "out.cmake") := by
  have h := (export_duplicate_file_policy
    (ExportGlobalState.mk [] [("lib", false)] ["es"] ["/b/out.cmake"] .NEW)
    "out.cmake" "/b/out.cmake" "es" ["lib"]
    (by decide) (by decide) (by decide)).1 rfl
  exact h.2

/-! ## Claim C10 -/

/-- C10: in a SETUP PACKAGE_DEPENDENCY group, ENABLED "AUTO" sets the
record to Auto, a false-like value to Off, a true-like value to On, any
other non-empty value is a fatal "Invalid enable setting for package
dependency" error that leaves the record created but not updated, and an
empty/absent ENABLED leaves the enabled state unchanged; in every
non-error case EXTRA_ARGS are appended in order with duplicates kept. -/
theorem export_setup_package_dependency_enabled
    (isOff isOn : String → Bool) (es : ExportSetState)
    (pkg enabledStr : String) (extraArgs : List String) :
    (enabledStr = "AUTO" →
      processPackageDependency isOff isOn es pkg enabledStr extraArgs =
        (setPackageDependency (getPackageDependencyForSetup es pkg).2 pkg
          ⟨.Auto, (getPackageDependencyForSetup es pkg).1.extraArguments ++ extraArgs⟩,
         none)) ∧
    (enabledStr ≠ "" → enabledStr ≠ "AUTO" → isOff enabledStr = true →
      processPackageDependency isOff isOn es pkg enabledStr extraArgs =
        (setPackageDependency (getPackageDependencyForSetup es pkg).2 pkg
          ⟨.Off, (getPackageDependencyForSetup es pkg).1.extraArguments ++ extraArgs⟩,
         none)) ∧
    (enabledStr ≠ "" → enabledStr ≠ "AUTO" → isOff enabledStr = false →
      isOn enabledStr = true →
      processPackageDependency isOff isOn es pkg enabledStr extraArgs =
        (setPackageDependency (getPackageDependencyForSetup es pkg).2 pkg
          ⟨.On, (getPackageDependencyForSetup es pkg).1.extraArguments ++ extraArgs⟩,
         none)) ∧
    (enabledStr ≠ "" → enabledStr ≠ "AUTO" → isOff enabledStr = false →
      isOn enabledStr = false →
      processPackageDependency isOff isOn es pkg enabledStr extraArgs =
        ((getPackageDependencyForSetup es pkg).2,
         some ("Invalid enable setting for package dependency: \"" ++
           enabledStr ++ "\""))) ∧
    (enabledStr = "" →
      processPackageDependency isOff isOn es pkg enabledStr extraArgs =
        (setPackageDependency (getPackageDependencyForSetup es pkg).2 pkg
          ⟨(getPackageDependencyForSetup es pkg).1.enabled,
           (getPackageDependencyForSetup es pkg).1.extraArguments ++ extraArgs⟩,
         none)) := by
  refine ⟨fun h => ?_, fun h1 h2 h3 => ?_, fun h1 h2 h3 h4 => ?_,
    fun h1 h2 h3 h4 => ?_, fun h => ?_⟩ <;>
  simp [processPackageDependency, *]

/-- Witness for C10: an unrecognized ENABLED value is a fatal error and
the export set keeps only the freshly created default record. -/
theorem export_setup_package_dependency_enabled_witness :
    processPackageDependency (fun s => s == "OFF") (fun s => s == "ON")
      (ExportSetState.mk []) "dep" "BOGUS" ["-a"] =
      (ExportSetState.mk [("dep", ⟨.Auto, []⟩)],
       some ("Invalid enable setting for package dependency: \"" ++
         "BOGUS" ++ "\"")) := by
  have h := (export_setup_package_dependency_enabled
    (fun s => s == "OFF") (fun s => s == "ON")
    (ExportSetState.mk []) "dep" "BOGUS" ["-a"]).2.2.2.1
    (by decide) (by decide) (by decide) (by decide)
  rw [h]
  decide

/-! ## Claim C3 -/

/-- C3: for a valid package name, whether the registry store runs is
gated by CMP0090 — OLD/WARN store unless
CMAKE_EXPORT_NO_PACKAGE_REGISTRY is on, NEW stores only when
CMAKE_EXPORT_PACKAGE_REGISTRY is on — and the command reports success in
every case, storing or not. -/
theorem export_package_registry_policy_gate (env : PackageCmdEnv)
    (pkg : String) (hne : pkg ≠ "")
    (hname : packageNamePatternMatch pkg = true) :
    (handlePackage env ["PACKAGE", pkg]).success = true ∧
    (handlePackage env ["PACKAGE", pkg]).errMsg = none ∧
    (env.cmp0090 = .OLD ∨ env.cmp0090 = .WARN →
      (env.exportNoPackageRegistryOn = true →
        (handlePackage env ["PACKAGE", pkg]).stored = none) ∧
      (env.exportNoPackageRegistryOn = false →
        (handlePackage env ["PACKAGE", pkg]).stored =
          some (pkg, env.currentBinaryDirectory,
            env.digest env.currentBinaryDirectory))) ∧
    (env.cmp0090 = .NEW →
      (env.exportPackageRegistryOn = false →
        (handlePackage env ["PACKAGE", pkg]).stored = none) ∧
      (env.exportPackageRegistryOn = true →
        (handlePackage env ["PACKAGE", pkg]).stored =
          some (pkg, env.currentBinaryDirectory,
            env.digest env.currentBinaryDirectory))) := by
  cases hpol : env.cmp0090 <;>
  cases hno : env.exportNoPackageRegistryOn <;>
  cases hyes : env.exportPackageRegistryOn <;>
  simp_all [handlePackage, handlePackageNamed, hne, hname]

/-- Witness for C3: a valid name under CMP0090 NEW with
CMAKE_EXPORT_PACKAGE_REGISTRY off succeeds without storing. -/
theorem export_package_registry_policy_gate_witness :
    (handlePackage (PackageCmdEnv.mk .NEW false false "/b" (fun s => s))
      ["PACKAGE", "Foo"]).success = true ∧
    (handlePackage (PackageCmdEnv.mk .NEW false false "/b" (fun s => s))
      ["PACKAGE", "Foo"]).stored = none := by
  have h := export_package_registry_policy_gate
    (PackageCmdEnv.mk .NEW false false "/b" (fun s => s)) "Foo"
    (by decide) (by decide)
  exact ⟨h.1, (h.2.2.2 rfl).1 rfl⟩

/-! ## Claim C6 -/

/-- C6: export(PACKAGE) validates the name before any other effect — an
empty name fails with exactly "PACKAGE must be given a package name.",
and a name with a space fails the `^[A-Za-z0-9_.-]+$` pattern check with
the invalid-name error naming the pattern; both return failure and store
nothing. -/
theorem export_package_name_validation (env : PackageCmdEnv) :
    handlePackage env ["PACKAGE", ""] =
      ⟨false, some "PACKAGE must be given a package name.", none⟩ ∧
    handlePackage env ["PACKAGE", "Foo Bar"] =
      ⟨false, some ("PACKAGE given invalid package name \"Foo Bar\".  " ++
        "Package names must match \"^[A-Za-z0-9_.-]+$\"."), none⟩ := by
  have hpat : packageNamePatternMatch "Foo Bar" = false := by decide
  constructor
  · rfl
  · simp [handlePackage, handlePackageNamed, hpat]

/-! ## Registry store lemmas -/

theorem filter_not_self_append {α : Type} (l : List α) (p : α → Bool)
    (e : α) (he : p e = true) :
    ((l.filter fun a => !p a) ++ [e]).filter (fun a => !p a) =
      l.filter fun a => !p a := by
  rw [List.filter_append, List.filter_filter]
  simp [he]

theorem find?_filter_not_append {α : Type} (l : List α) (p : α → Bool)
    (e : α) (he : p e = true) :
    ((l.filter fun a => !p a) ++ [e]).find? p = some e := by
  induction l with
  | nil => simp [List.find?, he]
  | cons a t ih =>
    by_cases h : p a
    · simp only [List.filter_cons, h, Bool.not_true]
      exact ih
    · have hb : (!p a) = true := by simp [h]
      simp only [List.filter_cons, hb, if_pos, List.cons_append]
      rw [List.find?_cons_of_neg _ h]
      exact ih

theorem regLookup_regInsert_self (st : RegistryState)
    (pkg hash value : String) :
    regLookup (regInsert st pkg hash value) pkg hash = some value := by
  have hk : keyMatch pkg hash ((pkg, hash), value) = true := by
    simp [keyMatch]
  simp [regLookup, regInsert, find?_filter_not_append _ _ _ hk]

theorem regInsert_idem (st : RegistryState) (pkg hash value : String) :
    regInsert (regInsert st pkg hash value) pkg hash value =
      regInsert st pkg hash value := by
  have hk : keyMatch pkg hash ((pkg, hash), value) = true := by
    simp [keyMatch]
  simp only [regInsert]
  rw [filter_not_self_append _ _ _ hk]

theorem countEntries_regInsert (st : RegistryState)
    (pkg hash value : String) :
    countEntries (regInsert st pkg hash value) pkg hash = 1 := by
  have hk : keyMatch pkg hash ((pkg, hash), value) = true := by
    simp [keyMatch]
  simp [countEntries, regInsert, List.filter_append, List.filter_filter, hk]

/-! ## Claim C4 -/

/-- C4 counterexample: on the Windows backend, a second Store of the same
(package, content, hash) into a registry that already holds the entry is
not a no-op guarded by an existence check — its operation trace is a bare
unconditional write. -/
theorem store_windows_no_existence_check :
    (storePackageRegistryWindows
      (storePackageRegistryWindows (RegistryState.mk []) "Pkg" "C" "H").1
      "Pkg" "C" "H").2 = [RegOp.write "Pkg" "H" "C"] := by
  decide

/-- C4 (amended): Store is idempotent at the store-state level in both
backends — a second Store with the same (package, content, hash) leaves
the state unchanged, and from an empty store exactly one entry exists
under that (package, digest) — but only the POSIX backend performs an
existence check before writing (its second call checks and does not
write); the Windows backend writes unconditionally, overwriting the entry
with identical content. -/
theorem store_idempotent_state (st : RegistryState)
    (pkg content hash : String) :
    (storePackageRegistryPosix
      (storePackageRegistryPosix st pkg content hash).1 pkg content hash).1 =
      (storePackageRegistryPosix st pkg content hash).1 ∧
    (storePackageRegistryPosix
      (storePackageRegistryPosix st pkg content hash).1 pkg content hash).2 =
      [RegOp.checkExists pkg hash true] ∧
    (storePackageRegistryWindows
      (storePackageRegistryWindows st pkg content hash).1 pkg content hash).1 =
      (storePackageRegistryWindows st pkg content hash).1 ∧
    countEntries (storePackageRegistryPosix
      (storePackageRegistryPosix (RegistryState.mk []) pkg content hash).1
      pkg content hash).1 pkg hash = 1 ∧
    countEntries (storePackageRegistryWindows
      (storePackageRegistryWindows (RegistryState.mk []) pkg content hash).1
      pkg content hash).1 pkg hash = 1 := by
  have hwin : (storePackageRegistryWindows
      (storePackageRegistryWindows st pkg content hash).1 pkg content hash).1 =
      (storePackageRegistryWindows st pkg content hash).1 := by
    simp [storePackageRegistryWindows, regInsert_idem]
  have hposix : ∀ s : RegistryState,
      (storePackageRegistryPosix
        (storePackageRegistryPosix s pkg content hash).1 pkg content hash) =
        ((storePackageRegistryPosix s pkg content hash).1,
         [RegOp.checkExists pkg hash true]) := by
    intro s
    cases hl : regLookup s pkg hash with
    | some v =>
      simp [storePackageRegistryPosix, hl]
    | none =>
      simp [storePackageRegistryPosix, hl, regLookup_regInsert_self]
  refine ⟨?_, ?_, hwin, ?_, ?_⟩
  · rw [hposix st]
  · rw [hposix st]
  · have h0 : regLookup (RegistryState.mk []) pkg hash = none := rfl
    rw [hposix (RegistryState.mk [])]
    simp [storePackageRegistryPosix, h0, countEntries_regInsert]
  · simp [storePackageRegistryWindows, regInsert_idem, countEntries_regInsert]

end CMakeSpec
